import Mathlib

/-!
Shallow embedding of the gorush web-push sender core: the notification data
model and validator (`CheckMessage`, `IsTopic`, `AddLog`, `WaitDone` from
`gorush/notification.go`) and the web platform sender (`PushToWeb` and its
helpers from the web-push source file).  External collaborators (the web
client, the stat storage, the loggers) are modelled as explicit parameters
and as fields of an explicit effect state `GorushState`.
-/

namespace Gorush

/-- Modelled from the spec: the platform enum constants (the Go const file is
not part of the provided sources).  The spec's platforms are MobileB (iOS),
MobileA (Android) and Web; only distinctness and identity of the three values
matter to the embedded code. -/
def PlatformIos : Nat := 1

/-- Modelled from the spec: the MobileA (Android/FCM-like) platform constant. -/
def PlatformAndroid : Nat := 2

/-- Modelled from the spec: the Web platform constant. -/
def PlatformWeb : Nat := 3

/-- Modelled from the spec: the outcome tag used for a failed per-recipient
delivery log entry (the Go const file is not part of the provided sources). -/
def FailedPush : String := "failed-push"

/-- Modelled from the spec: the outcome tag used for a succeeded per-recipient
delivery log entry. -/
def SucceededPush : String := "succeeded-push"

/-- `Subscription` is the Webpush subscription object (notification.go). -/
structure Subscription where
  Endpoint : String
  Key : String
  Auth : String
deriving DecidableEq, Repr

/-- The arbitrary key→value data payload `D` (notification.go); the values are
opaque to the dispatch core and are modelled as strings. -/
def D := List (String × String)

/-- Modelled from the spec: one per-recipient log entry
{outcome, recipient identifier, request snapshot, error detail}
(`LogPushEntry`; its Go definition is not part of the provided sources).
The Go field `Type` is called `PushType` here because `Type` is reserved. -/
structure LogPushEntry where
  PushType : String
  Token : String
  Message : String
  Error : Option String
deriving DecidableEq, Repr

/-- `PushNotification` is a single notification request (notification.go),
restricted to the fields the embedded code reads.  The transient pointer
fields `wg` and `log` are modelled by the booleans `wgSet` and `logSet`
recording whether the pointer is non-nil; the pointees live in `GorushState`. -/
structure PushNotification where
  Tokens : List String
  Platform : Nat
  Message : String
  Retry : Int
  sync : Bool
  wgSet : Bool
  logSet : Bool
  APIKey : String
  To : String
  TimeToLive : Option Nat
  Condition : String
  Data : D
  Subscriptions : List Subscription

/-- The explicit effect state threaded through the sender: the two web
counters of the stat storage, a ghost counter of delivery passes performed
(`attempts`, instrumentation only), the request-scoped accumulated log
(pointee of the request's `log` field), the external per-outcome log sink
(`LogPush` calls), the external error log (`LogError.Error` calls), the
number of `WaitDone` invocations, and the wait-group counter. -/
structure GorushState where
  webSuccess : Nat
  webError : Nat
  attempts : Nat
  reqLog : List LogPushEntry
  extPush : List LogPushEntry
  extError : List String
  waitDoneCalls : Nat
  wgCount : Int
deriving DecidableEq, Repr

/-- An all-zero, all-empty initial effect state. -/
def st0 : GorushState :=
  { webSuccess := 0, webError := 0, attempts := 0, reqLog := [], extPush := [],
    extError := [], waitDoneCalls := 0, wgCount := 0 }

/-- `WaitDone` decrements the WaitGroup counter if the pointer is set
(notification.go); the invocation itself is counted in `waitDoneCalls`. -/
def PushNotification.WaitDone (p : PushNotification) (st : GorushState) : GorushState :=
  { st with
    waitDoneCalls := st.waitDoneCalls + 1,
    wgCount := if p.wgSet then st.wgCount - 1 else st.wgCount }

/-- `AddLog` records a log entry of the notification into the request-scoped
log if the log pointer is set (notification.go). -/
def PushNotification.AddLog (p : PushNotification) (entry : LogPushEntry)
    (st : GorushState) : GorushState :=
  if p.logSet then { st with reqLog := st.reqLog ++ [entry] } else st

/-- `IsTopic` checks if the message format is topic for FCM
(notification.go). -/
def PushNotification.IsTopic (p : PushNotification) : Bool :=
  (p.Platform == PlatformAndroid && p.To != "" && p.To.startsWith "/topics/")
    || p.Condition != ""

/-- The validation message for a Web request without subscriptions. -/
def msgNoSubscription : String := "the message must specify at least one subscription"

/-- The validation message for a non-Web request without recipients or topic. -/
def msgNoRegistration : String := "the message must specify at least one registration ID"

/-- The validation message for an empty first token. -/
def msgEmptyToken : String := "the token must not be empty"

/-- The validation message for more than 1000 Android registration IDs. -/
def msgTooMany : String := "the message may specify at most 1000 registration IDs"

/-- The validation message for an out-of-range Android TimeToLive field. -/
def msgTTL : String :=
  "the message" ++ (Char.ofNat 39).toString
    ++ "s TimeToLive field must be an integer between 0 and 2419200 (4 weeks)"

/-- The TTL condition of `CheckMessage`: the field is present and out of the
range [0, 2419200] (the Go test `*ttl < uint(0)` is kept; it is vacuous on an
unsigned value, exactly as in the source). -/
def ttlOutOfRange (ttl : Option Nat) : Bool :=
  match ttl with
  | some t => decide (t < 0) || decide (2419200 < t)
  | none => false

/-- `CheckMessage` checks the request message (notification.go): it mirrors
the source's if/else chain, returning the first violated rule's message. -/
def CheckMessage (req : PushNotification) : Option String :=
  if req.Platform = PlatformWeb then
    if req.Subscriptions.length = 0 then some msgNoSubscription
    else none
  else
    if req.IsTopic = false ∧ req.Tokens.length = 0 ∧ req.To.length = 0 then
      some msgNoRegistration
    else if req.Tokens.length > 0 ∧ (req.Tokens.headD "").length = 0 then
      some msgEmptyToken
    else if req.Platform = PlatformAndroid ∧ req.Tokens.length > 1000 then
      some msgTooMany
    else if req.Platform = PlatformAndroid ∧ ttlOutOfRange req.TimeToLive = true then
      some msgTTL
    else none

/-- A web push notification as handed to the web client (the `web.Notification`
shape built by `getWebNotification` in the web-push source file). -/
structure WebNotification where
  Payload : D
  Subscription : Subscription
  TimeToLive : Option Nat

/-- `getWebNotification` builds the per-subscription web notification
(web-push source file). -/
def getWebNotification (req : PushNotification) (subscription : Subscription) :
    WebNotification :=
  { Payload := req.Data, Subscription := subscription, TimeToLive := req.TimeToLive }

/-- The result of one `WebClient.Push` call: either no error, or an error with
its text together with the (possibly absent) HTTP response. -/
inductive WebPushResult where
  | ok : WebPushResult
  | err (errText : String) (statusCode : Option Int) : WebPushResult

/-- Whether a `WebClient.Push` result is an error. -/
def outcomeIsErr : WebPushResult → Bool
  | .ok => false
  | .err _ _ => true

/-- A web client capability: given the attempt number (the Go client is
stateful, so successive attempts may answer differently), the notification and
the api key, produce the call result.  External collaborator. -/
def WebClient : Type := Nat → WebNotification → String → WebPushResult

/-- Modelled from the spec: `getLogPushEntry` builds one per-recipient log
entry {outcome, recipient identifier, request snapshot, error detail} (its Go
definition is not part of the provided sources). -/
def getLogPushEntry (status token : String) (req : PushNotification)
    (errText : Option String) : LogPushEntry :=
  { PushType := status, Token := token, Message := req.Message, Error := errText }

/-- Modelled from the spec: `LogPush` emits one per-recipient outcome entry to
the external log sink (its Go definition is not part of the provided sources). -/
def LogPush (status token : String) (req : PushNotification)
    (errText : Option String) (st : GorushState) : GorushState :=
  { st with extPush := st.extPush ++ [getLogPushEntry status token req errText] }

/-- `LogError.Error("request error: " + err)` on the validation-failure path. -/
def logRequestError (errText : String) (st : GorushState) : GorushState :=
  { st with extError := st.extError ++ ["request error: " ++ errText] }

/-- The serialized web token built inside the subscription loop of `PushToWeb`. -/
def webToken (subscription : Subscription) : String :=
  "\x7b\"endpoint\":\"" ++ subscription.Endpoint ++ "\",\"key\":\""
    ++ subscription.Key ++ "\",\"auth\":\"" ++ subscription.Auth ++ "\"\x7d"

/-- The running accumulator of one pass of the subscription loop of
`PushToWeb`: the `isError` flag, the per-attempt success and failure tallies,
and the effect state. -/
structure AttemptAcc where
  isError : Bool
  successCount : Nat
  failureCount : Nat
  st : GorushState

/-- One iteration of the subscription loop of `PushToWeb` for one subscription
with the web client's result for it: on error, set `isError`, bump the failure
tally, emit the failure to the external sink and (in synchronous mode) append
a failure entry to the request log, its error text being the call's error text
when the response is absent and the response's status code otherwise; on
success, reset `isError`, bump the success tally and emit the success to the
external sink. -/
def attemptStep (req : PushNotification) (result : WebPushResult)
    (subscription : Subscription) (acc : AttemptAcc) : AttemptAcc :=
  match result with
  | .ok =>
      { acc with
        isError := false,
        successCount := acc.successCount + 1,
        st := LogPush SucceededPush (webToken subscription) req none acc.st }
  | .err errText statusCode =>
      let st1 := LogPush FailedPush subscription.Endpoint req (some errText) acc.st
      let entryText :=
        match statusCode with
        | none => errText
        | some code => toString code
      let st2 :=
        if req.sync then
          req.AddLog (getLogPushEntry FailedPush (webToken subscription) req (some entryText)) st1
        else st1
      { acc with
        isError := true,
        failureCount := acc.failureCount + 1,
        st := st2 }

/-- One full pass over the request's subscriptions (the body following the
`Retry:` label in `PushToWeb`), before the stats update. -/
def attemptOnce (client : WebClient) (apiKey : String) (k : Nat)
    (req : PushNotification) (st : GorushState) : AttemptAcc :=
  req.Subscriptions.foldl
    (fun acc subscription =>
      attemptStep req (client k (getWebNotification req subscription) apiKey)
        subscription acc)
    { isError := false, successCount := 0, failureCount := 0, st := st }

/-- One full attempt of `PushToWeb` including the stats update that follows
the loop (`StatStorage.AddWebSuccess` / `AddWebError`); the ghost `attempts`
counter records the pass. -/
def runAttempt (client : WebClient) (apiKey : String) (k : Nat)
    (req : PushNotification) (st : GorushState) : Bool × GorushState :=
  let a := attemptOnce client apiKey k req st
  (a.isError,
   { a.st with
     webSuccess := a.st.webSuccess + a.successCount,
     webError := a.st.webError + a.failureCount,
     attempts := a.st.attempts + 1 })

/-- The `goto Retry` loop of `PushToWeb`.  In the source the loop repeats
while `isError && retryCount < maxRetry`, with `retryCount` starting at 0 and
incremented on each retry; here `retriesLeft = maxRetry - retryCount` counts
the retries still allowed (clamped at 0), so `retriesLeft > 0` is exactly the
source's `retryCount < maxRetry`, and `k` is the 0-based attempt number. -/
def pushLoop (client : WebClient) (apiKey : String) (req : PushNotification) :
    Nat → Nat → GorushState → Bool × GorushState
  | k, 0, st => runAttempt client apiKey k req st
  | k, retries + 1, st =>
      let res := runAttempt client apiKey k req st
      if res.fst then pushLoop client apiKey req (k + 1) retries res.snd else res

/-- The effective retry budget of `PushToWeb`: `maxRetry = PushConf.Web.MaxRetry`
overridden by `req.Retry` when `req.Retry > 0 && req.Retry < maxRetry`. -/
def webMaxRetry (confMaxRetry : Int) (req : PushNotification) : Int :=
  if req.Retry > 0 ∧ req.Retry < confMaxRetry then req.Retry else confMaxRetry

/-- The effective api key of `PushToWeb`: `PushConf.Web.APIKey` overridden by
`req.APIKey` when the latter is non-empty. -/
def effectiveAPIKey (confAPIKey : String) (req : PushNotification) : String :=
  if req.APIKey != "" then req.APIKey else confAPIKey

/-- `PushToWeb` sends a notification to the web platform (web-push source
file): read `req.sync` and, if set, defer `WaitDone` to every exit; resolve
the retry budget; validate via `CheckMessage`, on failure log the error and
return `false`; resolve the api key; then run the attempt/retry loop and
return its final `isError`.  The configuration values and the web client are
passed explicitly in place of the Go globals. -/
def PushToWeb (client : WebClient) (confMaxRetry : Int) (confAPIKey : String)
    (req : PushNotification) (st : GorushState) : Bool × GorushState :=
  let doSync := req.sync
  let finish : Bool × GorushState → Bool × GorushState :=
    fun r => if doSync then (r.fst, req.WaitDone r.snd) else r
  let maxRetry := webMaxRetry confMaxRetry req
  match CheckMessage req with
  | some errText => finish (false, logRequestError errText st)
  | none =>
      let apiKey := effectiveAPIKey confAPIKey req
      finish (pushLoop client apiKey req 0 maxRetry.toNat st)

/-- The subscription loop of one attempt, exposed over an arbitrary
subscription list and starting accumulator so that its invariants can be
stated by induction; `attemptOnce` instantiates it exactly as the source
does. -/
def attemptFold (client : WebClient) (apiKey : String) (k : Nat)
    (req : PushNotification) (subs : List Subscription) (acc : AttemptAcc) :
    AttemptAcc :=
  subs.foldl
    (fun acc subscription =>
      attemptStep req (client k (getWebNotification req subscription) apiKey)
        subscription acc)
    acc

/-- Whether the last-iterated subscription of attempt `k` gets an error
result from the client (`false` when the request has no subscriptions):
by `attemptFold_isError` this is exactly the `isError` flag the attempt
ends with, since each loop iteration overwrites the flag. -/
def attemptLastErr (client : WebClient) (apiKey : String) (k : Nat)
    (req : PushNotification) : Bool :=
  match req.Subscriptions.getLast? with
  | none => false
  | some subscription =>
      outcomeIsErr (client k (getWebNotification req subscription) apiKey)

/-- Spec rule: a Web request must have at least one subscription. -/
def ruleEmptySubscriptions (req : PushNotification) : Option String :=
  if req.Platform = PlatformWeb ∧ req.Subscriptions.length = 0 then
    some msgNoSubscription
  else none

/-- Spec rule: a non-Web request must have a recipient or target a topic. -/
def ruleNoRecipientNoTopic (req : PushNotification) : Option String :=
  if req.Platform ≠ PlatformWeb ∧ req.IsTopic = false ∧ req.Tokens.length = 0
      ∧ req.To.length = 0 then
    some msgNoRegistration
  else none

/-- Spec rule: a non-Web request with tokens must not start with an empty one. -/
def ruleEmptyFirstToken (req : PushNotification) : Option String :=
  if req.Platform ≠ PlatformWeb ∧ req.Tokens.length > 0
      ∧ (req.Tokens.headD "").length = 0 then
    some msgEmptyToken
  else none

/-- Spec rule: an Android request may have at most 1000 registration IDs. -/
def ruleTooManyRecipients (req : PushNotification) : Option String :=
  if req.Platform = PlatformAndroid ∧ req.Tokens.length > 1000 then
    some msgTooMany
  else none

/-- Spec rule: an Android request's optional TTL must lie in [0, 2419200]. -/
def ruleTTLOutOfRange (req : PushNotification) : Option String :=
  if req.Platform = PlatformAndroid ∧ ttlOutOfRange req.TimeToLive = true then
    some msgTTL
  else none

/-- The spec's fixed rule order: empty-subscriptions → empty-recipients-and-
no-topic → empty-first-token → too-many-recipients → TTL-out-of-range, each
rule guarded by the platform it applies to. -/
def specRules : List (PushNotification → Option String) :=
  [ruleEmptySubscriptions, ruleNoRecipientNoTopic, ruleEmptyFirstToken,
   ruleTooManyRecipients, ruleTTLOutOfRange]

/-- The validator as worded by the spec: the error of the first violated rule
in the fixed order, `none` when no rule is violated. -/
def specFirstViolatedRule (req : PushNotification) : Option String :=
  specRules.findSome? fun rule => rule req

/-! Concrete inputs used by counterexamples and witnesses. -/

/-- A first concrete web-push subscription. -/
def subA : Subscription := { Endpoint := "A", Key := "k1", Auth := "a1" }

/-- A second concrete web-push subscription. -/
def subB : Subscription := { Endpoint := "B", Key := "k2", Auth := "a2" }

/-- A base Web request: no override, asynchronous, no subscriptions. -/
def baseReq : PushNotification :=
  { Tokens := [], Platform := PlatformWeb, Message := "hello", Retry := 0,
    sync := false, wgSet := false, logSet := false, APIKey := "", To := "",
    TimeToLive := none, Condition := "", Data := [], Subscriptions := [] }

/-- A web client that accepts every delivery. -/
def clientOkAll : WebClient := fun _ _ _ => .ok

/-- A web client that rejects every delivery. -/
def clientFailAll : WebClient := fun _ _ _ => .err "connection refused" none

/-- A web client that rejects subscription endpoint "A" and accepts the rest. -/
def clientFailA : WebClient := fun _ n _ =>
  if n.Subscription.Endpoint = "A" then .err "unregistered" none else .ok

/-- The spec scenario client: on the first attempt subscription endpoint "B"
fails and the rest succeed; on later attempts everything succeeds. -/
def clientScenario : WebClient := fun k n _ =>
  if k = 0 ∧ n.Subscription.Endpoint = "B" then .err "gateway error" none
  else .ok

/-- A valid Web request whose first subscription fails and second succeeds
under `clientFailA`. -/
def reqC1 : PushNotification := { baseReq with Subscriptions := [subA, subB] }

/-- A synchronous Web request with no subscriptions: it fails validation. -/
def reqC2bug : PushNotification :=
  { baseReq with sync := true, wgSet := true, logSet := true }

/-- The spec's two-subscription synchronous scenario request. -/
def reqScenario : PushNotification :=
  { baseReq with sync := true, wgSet := true, logSet := true, Subscriptions := [subA, subB] }

/-- A valid Web request with retry override 1. -/
def reqC4 : PushNotification :=
  { baseReq with Retry := 1, Subscriptions := [subA] }

/-- A synchronous request that fails validation (no subscriptions). -/
def reqC8 : PushNotification := { baseReq with sync := true, wgSet := true }

/-- An Android request with out-of-range TTL that also violates the earlier
no-recipient rule. -/
def reqC9ce : PushNotification :=
  { baseReq with Platform := PlatformAndroid, TimeToLive := some 2419201 }

/-- An Android request with one token and out-of-range TTL, violating no
earlier rule. -/
def reqC9w : PushNotification :=
  { baseReq with Platform := PlatformAndroid, Tokens := ["token-one"], TimeToLive := some 2419201 }

/-- An Android request with empty tokens, a condition, and out-of-range TTL. -/
def reqC10ce : PushNotification :=
  { baseReq with Platform := PlatformAndroid, Condition := "weather", TimeToLive := some 2419201 }

/-- An iOS request with empty tokens and a non-empty condition (TTL present
but irrelevant on iOS). -/
def reqC10w : PushNotification :=
  { baseReq with Platform := PlatformIos, Condition := "weather", TimeToLive := some 2419201 }

/-- The accumulator the subscription loop starts from (flag clear, zero
tallies, current effect state). -/
def accInit (st : GorushState) : AttemptAcc :=
  { isError := false, successCount := 0, failureCount := 0, st := st }

/-! Helper lemmas: which state fields each operation leaves untouched. -/

@[simp] theorem accInit_isError (st : GorushState) : (accInit st).isError = false := rfl

@[simp] theorem accInit_successCount (st : GorushState) : (accInit st).successCount = 0 := rfl

@[simp] theorem accInit_failureCount (st : GorushState) : (accInit st).failureCount = 0 := rfl

@[simp] theorem accInit_st (st : GorushState) : (accInit st).st = st := rfl

@[simp] theorem AddLog_webSuccess (p : PushNotification) (e : LogPushEntry) (st : GorushState) :
    (p.AddLog e st).webSuccess = st.webSuccess := by
  unfold PushNotification.AddLog; split <;> rfl

@[simp] theorem AddLog_webError (p : PushNotification) (e : LogPushEntry) (st : GorushState) :
    (p.AddLog e st).webError = st.webError := by
  unfold PushNotification.AddLog; split <;> rfl

@[simp] theorem AddLog_attempts (p : PushNotification) (e : LogPushEntry) (st : GorushState) :
    (p.AddLog e st).attempts = st.attempts := by
  unfold PushNotification.AddLog; split <;> rfl

@[simp] theorem AddLog_waitDoneCalls (p : PushNotification) (e : LogPushEntry) (st : GorushState) :
    (p.AddLog e st).waitDoneCalls = st.waitDoneCalls := by
  unfold PushNotification.AddLog; split <;> rfl

theorem AddLog_reqLog_length_of_set (p : PushNotification) (e : LogPushEntry)
    (st : GorushState) (h : p.logSet = true) :
    (p.AddLog e st).reqLog.length = st.reqLog.length + 1 := by
  unfold PushNotification.AddLog
  simp [h]

@[simp] theorem LogPush_webSuccess (s t : String) (r : PushNotification)
    (e : Option String) (st : GorushState) :
    (LogPush s t r e st).webSuccess = st.webSuccess := rfl

@[simp] theorem LogPush_webError (s t : String) (r : PushNotification)
    (e : Option String) (st : GorushState) :
    (LogPush s t r e st).webError = st.webError := rfl

@[simp] theorem LogPush_attempts (s t : String) (r : PushNotification)
    (e : Option String) (st : GorushState) :
    (LogPush s t r e st).attempts = st.attempts := rfl

@[simp] theorem LogPush_waitDoneCalls (s t : String) (r : PushNotification)
    (e : Option String) (st : GorushState) :
    (LogPush s t r e st).waitDoneCalls = st.waitDoneCalls := rfl

@[simp] theorem LogPush_reqLog (s t : String) (r : PushNotification)
    (e : Option String) (st : GorushState) :
    (LogPush s t r e st).reqLog = st.reqLog := rfl

/-! Helper lemmas on one iteration of the subscription loop. -/

theorem attemptStep_isError (req : PushNotification) (res : WebPushResult)
    (s : Subscription) (acc : AttemptAcc) :
    (attemptStep req res s acc).isError = outcomeIsErr res := by
  cases res <;> rfl

theorem attemptStep_counts (req : PushNotification) (res : WebPushResult)
    (s : Subscription) (acc : AttemptAcc) :
    (attemptStep req res s acc).successCount + (attemptStep req res s acc).failureCount
      = acc.successCount + acc.failureCount + 1 := by
  cases res <;> simp [attemptStep] <;> omega

theorem attemptStep_st_webSuccess (req : PushNotification) (res : WebPushResult)
    (s : Subscription) (acc : AttemptAcc) :
    (attemptStep req res s acc).st.webSuccess = acc.st.webSuccess := by
  cases res with
  | ok => rfl
  | err e c => simp only [attemptStep]; split <;> simp

theorem attemptStep_st_webError (req : PushNotification) (res : WebPushResult)
    (s : Subscription) (acc : AttemptAcc) :
    (attemptStep req res s acc).st.webError = acc.st.webError := by
  cases res with
  | ok => rfl
  | err e c => simp only [attemptStep]; split <;> simp

theorem attemptStep_st_attempts (req : PushNotification) (res : WebPushResult)
    (s : Subscription) (acc : AttemptAcc) :
    (attemptStep req res s acc).st.attempts = acc.st.attempts := by
  cases res with
  | ok => rfl
  | err e c => simp only [attemptStep]; split <;> simp

theorem attemptStep_st_waitDoneCalls (req : PushNotification) (res : WebPushResult)
    (s : Subscription) (acc : AttemptAcc) :
    (attemptStep req res s acc).st.waitDoneCalls = acc.st.waitDoneCalls := by
  cases res with
  | ok => rfl
  | err e c => simp only [attemptStep]; split <;> simp

theorem attemptStep_reqLog_law (req : PushNotification) (res : WebPushResult)
    (s : Subscription) (acc : AttemptAcc) (hs : req.sync = true) (hl : req.logSet = true) :
    (attemptStep req res s acc).st.reqLog.length + acc.failureCount
      = acc.st.reqLog.length + (attemptStep req res s acc).failureCount := by
  cases res with
  | ok => simp [attemptStep]
  | err e c =>
      simp only [attemptStep, hs, if_true]
      rw [AddLog_reqLog_length_of_set _ _ _ hl]
      simp
      omega

/-! Helper lemmas on one full pass of the subscription loop. -/

theorem attemptFold_nil (client : WebClient) (apiKey : String) (k : Nat)
    (req : PushNotification) (acc : AttemptAcc) :
    attemptFold client apiKey k req [] acc = acc := rfl

theorem attemptFold_cons (client : WebClient) (apiKey : String) (k : Nat)
    (req : PushNotification) (s : Subscription) (subs : List Subscription)
    (acc : AttemptAcc) :
    attemptFold client apiKey k req (s :: subs) acc
      = attemptFold client apiKey k req subs
          (attemptStep req (client k (getWebNotification req s) apiKey) s acc) := rfl

theorem attemptFold_counts (client : WebClient) (apiKey : String) (k : Nat)
    (req : PushNotification) :
    ∀ (subs : List Subscription) (acc : AttemptAcc),
      (attemptFold client apiKey k req subs acc).successCount
          + (attemptFold client apiKey k req subs acc).failureCount
        = acc.successCount + acc.failureCount + subs.length := by
  intro subs
  induction subs with
  | nil => intro acc; simp [attemptFold_nil]
  | cons x xs ih =>
      intro acc
      rw [attemptFold_cons]
      have h1 := ih (attemptStep req (client k (getWebNotification req x) apiKey) x acc)
      have h2 := attemptStep_counts req (client k (getWebNotification req x) apiKey) x acc
      simp only [List.length_cons]
      omega

theorem attemptFold_isError (client : WebClient) (apiKey : String) (k : Nat)
    (req : PushNotification) :
    ∀ (subs : List Subscription) (acc : AttemptAcc),
      (attemptFold client apiKey k req subs acc).isError
        = match subs.getLast? with
          | none => acc.isError
          | some s => outcomeIsErr (client k (getWebNotification req s) apiKey) := by
  intro subs
  induction subs with
  | nil => intro acc; rfl
  | cons x xs ih =>
      intro acc
      rw [attemptFold_cons]
      cases xs with
      | nil =>
          rw [attemptFold_nil]
          simp [attemptStep_isError]
      | cons y ys =>
          rw [List.getLast?_cons_cons]
          exact ih _

theorem attemptFold_st_webSuccess (client : WebClient) (apiKey : String) (k : Nat)
    (req : PushNotification) :
    ∀ (subs : List Subscription) (acc : AttemptAcc),
      (attemptFold client apiKey k req subs acc).st.webSuccess = acc.st.webSuccess := by
  intro subs
  induction subs with
  | nil => intro acc; rfl
  | cons x xs ih =>
      intro acc
      rw [attemptFold_cons, ih]
      exact attemptStep_st_webSuccess _ _ _ _

theorem attemptFold_st_webError (client : WebClient) (apiKey : String) (k : Nat)
    (req : PushNotification) :
    ∀ (subs : List Subscription) (acc : AttemptAcc),
      (attemptFold client apiKey k req subs acc).st.webError = acc.st.webError := by
  intro subs
  induction subs with
  | nil => intro acc; rfl
  | cons x xs ih =>
      intro acc
      rw [attemptFold_cons, ih]
      exact attemptStep_st_webError _ _ _ _

theorem attemptFold_st_attempts (client : WebClient) (apiKey : String) (k : Nat)
    (req : PushNotification) :
    ∀ (subs : List Subscription) (acc : AttemptAcc),
      (attemptFold client apiKey k req subs acc).st.attempts = acc.st.attempts := by
  intro subs
  induction subs with
  | nil => intro acc; rfl
  | cons x xs ih =>
      intro acc
      rw [attemptFold_cons, ih]
      exact attemptStep_st_attempts _ _ _ _

theorem attemptFold_st_waitDoneCalls (client : WebClient) (apiKey : String) (k : Nat)
    (req : PushNotification) :
    ∀ (subs : List Subscription) (acc : AttemptAcc),
      (attemptFold client apiKey k req subs acc).st.waitDoneCalls = acc.st.waitDoneCalls := by
  intro subs
  induction subs with
  | nil => intro acc; rfl
  | cons x xs ih =>
      intro acc
      rw [attemptFold_cons, ih]
      exact attemptStep_st_waitDoneCalls _ _ _ _

theorem attemptFold_reqLog_law (client : WebClient) (apiKey : String) (k : Nat)
    (req : PushNotification) (hs : req.sync = true) (hl : req.logSet = true) :
    ∀ (subs : List Subscription) (acc : AttemptAcc),
      (attemptFold client apiKey k req subs acc).st.reqLog.length + acc.failureCount
        = acc.st.reqLog.length + (attemptFold client apiKey k req subs acc).failureCount := by
  intro subs
  induction subs with
  | nil => intro acc; rfl
  | cons x xs ih =>
      intro acc
      rw [attemptFold_cons]
      have h1 := ih (attemptStep req (client k (getWebNotification req x) apiKey) x acc)
      have h2 := attemptStep_reqLog_law req (client k (getWebNotification req x) apiKey) x acc hs hl
      omega

theorem attemptOnce_eq_fold (client : WebClient) (apiKey : String) (k : Nat)
    (req : PushNotification) (st : GorushState) :
    attemptOnce client apiKey k req st
      = attemptFold client apiKey k req req.Subscriptions
          { isError := false, successCount := 0, failureCount := 0, st := st } := rfl

/-! Helper lemmas on one full attempt including the stats update. -/

theorem runAttempt_fst (client : WebClient) (apiKey : String) (k : Nat)
    (req : PushNotification) (st : GorushState) :
    (runAttempt client apiKey k req st).fst = attemptLastErr client apiKey k req := by
  have h : (runAttempt client apiKey k req st).fst
      = (attemptFold client apiKey k req req.Subscriptions (accInit st)).isError := rfl
  rw [h, attemptFold_isError]
  rfl

theorem runAttempt_attempts (client : WebClient) (apiKey : String) (k : Nat)
    (req : PushNotification) (st : GorushState) :
    (runAttempt client apiKey k req st).snd.attempts = st.attempts + 1 := by
  have h : (runAttempt client apiKey k req st).snd.attempts
      = (attemptFold client apiKey k req req.Subscriptions (accInit st)).st.attempts + 1 := rfl
  rw [h, attemptFold_st_attempts]
  simp

theorem runAttempt_counters (client : WebClient) (apiKey : String) (k : Nat)
    (req : PushNotification) (st : GorushState) :
    (runAttempt client apiKey k req st).snd.webSuccess
        + (runAttempt client apiKey k req st).snd.webError
      = st.webSuccess + st.webError + req.Subscriptions.length
    ∧ st.webSuccess ≤ (runAttempt client apiKey k req st).snd.webSuccess
    ∧ st.webError ≤ (runAttempt client apiKey k req st).snd.webError := by
  have hS : (runAttempt client apiKey k req st).snd.webSuccess
      = (attemptFold client apiKey k req req.Subscriptions (accInit st)).st.webSuccess
        + (attemptFold client apiKey k req req.Subscriptions (accInit st)).successCount := rfl
  have hE : (runAttempt client apiKey k req st).snd.webError
      = (attemptFold client apiKey k req req.Subscriptions (accInit st)).st.webError
        + (attemptFold client apiKey k req req.Subscriptions (accInit st)).failureCount := rfl
  have hc := attemptFold_counts client apiKey k req req.Subscriptions (accInit st)
  have hs := attemptFold_st_webSuccess client apiKey k req req.Subscriptions (accInit st)
  have he := attemptFold_st_webError client apiKey k req req.Subscriptions (accInit st)
  simp only [accInit_successCount, accInit_failureCount, accInit_st] at hc hs he
  rw [hS, hE, hs, he]
  omega

theorem runAttempt_waitDoneCalls (client : WebClient) (apiKey : String) (k : Nat)
    (req : PushNotification) (st : GorushState) :
    (runAttempt client apiKey k req st).snd.waitDoneCalls = st.waitDoneCalls := by
  have h : (runAttempt client apiKey k req st).snd.waitDoneCalls
      = (attemptFold client apiKey k req req.Subscriptions (accInit st)).st.waitDoneCalls := rfl
  rw [h, attemptFold_st_waitDoneCalls]
  simp

theorem runAttempt_reqLog_law (client : WebClient) (apiKey : String) (k : Nat)
    (req : PushNotification) (st : GorushState)
    (hs : req.sync = true) (hl : req.logSet = true) :
    (runAttempt client apiKey k req st).snd.reqLog.length + st.webError
      = st.reqLog.length + (runAttempt client apiKey k req st).snd.webError := by
  have hL : (runAttempt client apiKey k req st).snd.reqLog
      = (attemptFold client apiKey k req req.Subscriptions (accInit st)).st.reqLog := rfl
  have hE : (runAttempt client apiKey k req st).snd.webError
      = (attemptFold client apiKey k req req.Subscriptions (accInit st)).st.webError
        + (attemptFold client apiKey k req req.Subscriptions (accInit st)).failureCount := rfl
  have h1 := attemptFold_reqLog_law client apiKey k req hs hl req.Subscriptions (accInit st)
  have he := attemptFold_st_webError client apiKey k req req.Subscriptions (accInit st)
  simp only [accInit_failureCount, accInit_st] at h1 he
  rw [hL, hE, he]
  omega

/-! Helper lemmas on the retry loop and the sender wrapper. -/

theorem pushLoop_zero (client : WebClient) (apiKey : String) (req : PushNotification)
    (k : Nat) (st : GorushState) :
    pushLoop client apiKey req k 0 st = runAttempt client apiKey k req st := rfl

theorem pushLoop_succ (client : WebClient) (apiKey : String) (req : PushNotification)
    (k r : Nat) (st : GorushState) :
    pushLoop client apiKey req k (r + 1) st
      = if (runAttempt client apiKey k req st).fst then
          pushLoop client apiKey req (k + 1) r (runAttempt client apiKey k req st).snd
        else runAttempt client apiKey k req st := rfl

theorem pushLoop_spec (client : WebClient) (apiKey : String) (req : PushNotification) :
    ∀ (retries k : Nat) (st : GorushState),
      ∃ d, d ≤ retries
        ∧ (pushLoop client apiKey req k retries st).snd.attempts = st.attempts + d + 1
        ∧ (pushLoop client apiKey req k retries st).fst
            = attemptLastErr client apiKey (k + d) req
        ∧ (pushLoop client apiKey req k retries st).snd.webSuccess
              + (pushLoop client apiKey req k retries st).snd.webError
            = st.webSuccess + st.webError + (d + 1) * req.Subscriptions.length
        ∧ st.webSuccess ≤ (pushLoop client apiKey req k retries st).snd.webSuccess
        ∧ st.webError ≤ (pushLoop client apiKey req k retries st).snd.webError
        ∧ (pushLoop client apiKey req k retries st).snd.waitDoneCalls = st.waitDoneCalls
        ∧ (req.sync = true → req.logSet = true →
            (pushLoop client apiKey req k retries st).snd.reqLog.length + st.webError
              = st.reqLog.length + (pushLoop client apiKey req k retries st).snd.webError) := by
  intro retries
  induction retries with
  | zero =>
      intro k st
      refine ⟨0, Nat.le_refl 0, ?_⟩
      rw [pushLoop_zero]
      have hc := runAttempt_counters client apiKey k req st
      refine ⟨runAttempt_attempts client apiKey k req st, ?_, ?_, hc.2.1, hc.2.2, runAttempt_waitDoneCalls client apiKey k req st, ?_⟩
      · rw [Nat.add_zero]; exact runAttempt_fst client apiKey k req st
      · rw [hc.1]; ring
      · intro hs hl; exact runAttempt_reqLog_law client apiKey k req st hs hl
  | succ r ih =>
      intro k st
      rw [pushLoop_succ]
      cases hE : (runAttempt client apiKey k req st).fst with
      | false =>
          refine ⟨0, Nat.zero_le _, ?_⟩
          rw [if_neg (by simp)]
          have hc := runAttempt_counters client apiKey k req st
          refine ⟨runAttempt_attempts client apiKey k req st, ?_, ?_, hc.2.1, hc.2.2, runAttempt_waitDoneCalls client apiKey k req st, ?_⟩
          · rw [Nat.add_zero]; exact runAttempt_fst client apiKey k req st
          · rw [hc.1]; ring
          · intro hs hl; exact runAttempt_reqLog_law client apiKey k req st hs hl
      | true =>
          rw [if_pos rfl]
          obtain ⟨d, hd, hA, hF, hC, hS, hEr, hW, hL⟩ :=
            ih (k + 1) (runAttempt client apiKey k req st).snd
          have hc := runAttempt_counters client apiKey k req st
          have ha := runAttempt_attempts client apiKey k req st
          have hw := runAttempt_waitDoneCalls client apiKey k req st
          refine ⟨d + 1, Nat.succ_le_succ hd, ?_, ?_, ?_, ?_, ?_, ?_, ?_⟩
          · omega
          · have hk : k + (d + 1) = k + 1 + d := by omega
            rw [hk]; exact hF
          · have hm : (d + 1 + 1) * req.Subscriptions.length
                = (d + 1) * req.Subscriptions.length + req.Subscriptions.length := by ring
            omega
          · exact Nat.le_trans hc.2.1 hS
          · exact Nat.le_trans hc.2.2 hEr
          · omega
          · intro hs hl
            have h1 := runAttempt_reqLog_law client apiKey k req st hs hl
            have h2 := hL hs hl
            omega

@[simp] theorem WaitDone_webSuccess (p : PushNotification) (st : GorushState) :
    (p.WaitDone st).webSuccess = st.webSuccess := rfl

@[simp] theorem WaitDone_webError (p : PushNotification) (st : GorushState) :
    (p.WaitDone st).webError = st.webError := rfl

@[simp] theorem WaitDone_attempts (p : PushNotification) (st : GorushState) :
    (p.WaitDone st).attempts = st.attempts := rfl

@[simp] theorem WaitDone_reqLog (p : PushNotification) (st : GorushState) :
    (p.WaitDone st).reqLog = st.reqLog := rfl

@[simp] theorem WaitDone_waitDoneCalls (p : PushNotification) (st : GorushState) :
    (p.WaitDone st).waitDoneCalls = st.waitDoneCalls + 1 := rfl

@[simp] theorem logRequestError_webSuccess (e : String) (st : GorushState) :
    (logRequestError e st).webSuccess = st.webSuccess := rfl

@[simp] theorem logRequestError_webError (e : String) (st : GorushState) :
    (logRequestError e st).webError = st.webError := rfl

@[simp] theorem logRequestError_attempts (e : String) (st : GorushState) :
    (logRequestError e st).attempts = st.attempts := rfl

@[simp] theorem logRequestError_reqLog (e : String) (st : GorushState) :
    (logRequestError e st).reqLog = st.reqLog := rfl

@[simp] theorem logRequestError_waitDoneCalls (e : String) (st : GorushState) :
    (logRequestError e st).waitDoneCalls = st.waitDoneCalls := rfl

theorem pushToWeb_some (client : WebClient) (confMaxRetry : Int) (confAPIKey : String)
    (req : PushNotification) (st : GorushState) (e : String)
    (h : CheckMessage req = some e) :
    PushToWeb client confMaxRetry confAPIKey req st
      = if req.sync then (false, req.WaitDone (logRequestError e st))
        else (false, logRequestError e st) := by
  unfold PushToWeb
  rw [h]

theorem pushToWeb_none (client : WebClient) (confMaxRetry : Int) (confAPIKey : String)
    (req : PushNotification) (st : GorushState)
    (h : CheckMessage req = none) :
    PushToWeb client confMaxRetry confAPIKey req st
      = if req.sync then
          ((pushLoop client (effectiveAPIKey confAPIKey req) req 0
              (webMaxRetry confMaxRetry req).toNat st).fst,
           req.WaitDone (pushLoop client (effectiveAPIKey confAPIKey req) req 0
              (webMaxRetry confMaxRetry req).toNat st).snd)
        else pushLoop client (effectiveAPIKey confAPIKey req) req 0
              (webMaxRetry confMaxRetry req).toNat st := by
  unfold PushToWeb
  rw [h]

/-! Claim theorems. -/

/-- C6: the effective retry budget equals `min(configuredMaxRetry,
retryOverride)` (which is the override itself) when
`0 < retryOverride < configuredMaxRetry`, and equals `configuredMaxRetry`
otherwise; in particular `retryOverride = 0` falls back to the configured
default. -/
theorem webMaxRetry_spec (confMaxRetry : Int) (req : PushNotification) :
    (webMaxRetry confMaxRetry req
        = if 0 < req.Retry ∧ req.Retry < confMaxRetry then min confMaxRetry req.Retry
          else confMaxRetry)
    ∧ (req.Retry = 0 → webMaxRetry confMaxRetry req = confMaxRetry) := by
  unfold webMaxRetry
  refine ⟨?_, ?_⟩
  · simp only [min_def]
    split_ifs <;> omega
  · intro h0
    split_ifs with h1
    · omega
    · rfl

/-- Witness for C6 at a concrete request with `retryOverride = 0`: the budget
falls back to the configured maximum 5. -/
theorem webMaxRetry_spec_witness :
    baseReq.Retry = 0 ∧ webMaxRetry 5 baseReq = 5 :=
  ⟨rfl, (webMaxRetry_spec 5 baseReq).2 rfl⟩

/-- C7: `CheckMessage` returns the error of the first violated rule, the rules
being checked in the fixed order empty-subscriptions → empty-recipients-and-
no-topic → empty-first-token → too-many-recipients → TTL-out-of-range, each
rule guarded by the platform it applies to. -/
theorem CheckMessage_eq_firstViolatedRule (req : PushNotification) :
    CheckMessage req = specFirstViolatedRule req := by
  have hAW : PlatformAndroid ≠ PlatformWeb := by decide
  unfold CheckMessage specFirstViolatedRule specRules ruleEmptySubscriptions
    ruleNoRecipientNoTopic ruleEmptyFirstToken ruleTooManyRecipients ruleTTLOutOfRange
  simp only [List.findSome?]
  by_cases hW : req.Platform = PlatformWeb
  · have n2 : ¬(req.Platform ≠ PlatformWeb ∧ req.IsTopic = false
        ∧ req.Tokens.length = 0 ∧ req.To.length = 0) := fun h => h.1 hW
    have n3 : ¬(req.Platform ≠ PlatformWeb ∧ req.Tokens.length > 0
        ∧ (req.Tokens.headD "").length = 0) := fun h => h.1 hW
    have n4 : ¬(req.Platform = PlatformAndroid ∧ req.Tokens.length > 1000) :=
      fun h => hAW (h.1.symm.trans hW)
    have n5 : ¬(req.Platform = PlatformAndroid ∧ ttlOutOfRange req.TimeToLive = true) :=
      fun h => hAW (h.1.symm.trans hW)
    by_cases hS : req.Subscriptions.length = 0
    · have p1 : req.Platform = PlatformWeb ∧ req.Subscriptions.length = 0 := ⟨hW, hS⟩
      simp only [if_pos hW, if_pos hS, if_pos p1]
    · have n1 : ¬(req.Platform = PlatformWeb ∧ req.Subscriptions.length = 0) :=
        fun h => hS h.2
      simp only [if_pos hW, if_neg hS, if_neg n1, if_neg n2, if_neg n3, if_neg n4, if_neg n5]
  · have n1 : ¬(req.Platform = PlatformWeb ∧ req.Subscriptions.length = 0) :=
      fun h => hW h.1
    by_cases h1 : req.IsTopic = false ∧ req.Tokens.length = 0 ∧ req.To.length = 0
    · have p2 : req.Platform ≠ PlatformWeb ∧ req.IsTopic = false
          ∧ req.Tokens.length = 0 ∧ req.To.length = 0 := ⟨hW, h1⟩
      simp only [if_neg hW, if_pos h1, if_neg n1, if_pos p2]
    · have n2 : ¬(req.Platform ≠ PlatformWeb ∧ req.IsTopic = false
          ∧ req.Tokens.length = 0 ∧ req.To.length = 0) := fun h => h1 h.2
      by_cases h2 : req.Tokens.length > 0 ∧ (req.Tokens.headD "").length = 0
      · have p3 : req.Platform ≠ PlatformWeb ∧ req.Tokens.length > 0
            ∧ (req.Tokens.headD "").length = 0 := ⟨hW, h2⟩
        simp only [if_neg hW, if_neg h1, if_pos h2, if_neg n1, if_neg n2, if_pos p3]
      · have n3 : ¬(req.Platform ≠ PlatformWeb ∧ req.Tokens.length > 0
            ∧ (req.Tokens.headD "").length = 0) := fun h => h2 h.2
        by_cases h3 : req.Platform = PlatformAndroid ∧ req.Tokens.length > 1000
        · simp only [if_neg hW, if_neg h1, if_neg h2, if_pos h3, if_neg n1, if_neg n2,
            if_neg n3]
        · by_cases h4 : req.Platform = PlatformAndroid ∧ ttlOutOfRange req.TimeToLive = true
          · simp only [if_neg hW, if_neg h1, if_neg h2, if_neg h3, if_pos h4, if_neg n1,
              if_neg n2, if_neg n3]
          · simp only [if_neg hW, if_neg h1, if_neg h2, if_neg h3, if_neg h4, if_neg n1,
              if_neg n2, if_neg n3]

/-- C9 counterexample: an Android request with out-of-range TTL that also has
no recipient and no topic fails with the no-registration reason, not the
TTL-range reason, refuting "validation fails with the TTL-range reason" as a
universal statement. -/
theorem checkMessage_ttl_reason_masked :
    reqC9ce.Platform = PlatformAndroid ∧ reqC9ce.TimeToLive = some 2419201
    ∧ CheckMessage reqC9ce = some msgNoRegistration
    ∧ ¬(CheckMessage reqC9ce = some msgTTL) := by decide

/-- C9 (amended): an Android request whose TimeToLive is present and exceeds
2419200 fails with the TTL-range reason provided no earlier rule is violated;
and a request whose TimeToLive is absent or at most 2419200 never yields the
TTL-range reason (the lower bound being vacuous on an unsigned field). -/
theorem checkMessage_ttl_rule (req : PushNotification) :
    (∀ t, req.Platform = PlatformAndroid → req.TimeToLive = some t → 2419200 < t →
        ¬(req.IsTopic = false ∧ req.Tokens.length = 0 ∧ req.To.length = 0) →
        ¬(req.Tokens.length > 0 ∧ (req.Tokens.headD "").length = 0) →
        req.Tokens.length ≤ 1000 →
        CheckMessage req = some msgTTL)
    ∧ ((∀ t, req.TimeToLive = some t → t ≤ 2419200) → CheckMessage req ≠ some msgTTL) := by
  constructor
  · intro t hA hT ht h1 h2 h3
    have hW : ¬(req.Platform = PlatformWeb) := by rw [hA]; decide
    have h4 : ¬(req.Platform = PlatformAndroid ∧ req.Tokens.length > 1000) :=
      fun h => absurd h.2 (by omega)
    have h5 : ttlOutOfRange req.TimeToLive = true := by
      rw [hT]
      unfold ttlOutOfRange
      simp
      omega
    unfold CheckMessage
    rw [if_neg hW, if_neg h1, if_neg h2, if_neg h4, if_pos ⟨hA, h5⟩]
  · intro hok hcontra
    unfold CheckMessage at hcontra
    split_ifs at hcontra
    all_goals try exact absurd hcontra (by decide)
    have hc : req.Platform = PlatformAndroid ∧ ttlOutOfRange req.TimeToLive = true := by
      assumption
    obtain ⟨hA, hbad⟩ := hc
    cases hT : req.TimeToLive with
    | none => rw [hT] at hbad; exact absurd hbad (by decide)
    | some t =>
        have hle := hok t hT
        rw [hT] at hbad
        unfold ttlOutOfRange at hbad
        simp at hbad
        omega

/-- Witness for C9 at a concrete Android request with one token and TTL
2419201: validation fails with the TTL-range reason. -/
theorem checkMessage_ttl_rule_witness :
    reqC9w.Platform = PlatformAndroid ∧ CheckMessage reqC9w = some msgTTL :=
  ⟨rfl, (checkMessage_ttl_rule reqC9w).1 2419201 rfl rfl (by decide) (by decide)
    (by decide) (by decide)⟩

/-- C10 counterexample: an Android request with empty Tokens, empty To and a
non-empty Condition still fails validation when its TTL is out of range,
refuting "validation succeeds" as a universal statement. -/
theorem checkMessage_topic_escape_claim_false :
    reqC10ce.Platform ≠ PlatformWeb ∧ reqC10ce.Tokens = [] ∧ reqC10ce.To = ""
    ∧ reqC10ce.Condition ≠ "" ∧ ¬(CheckMessage reqC10ce = none) := by decide

/-- C10 (amended): a non-Web request with empty Tokens and empty To but a
non-empty Condition passes validation provided that, when the platform is
Android, the TTL is absent or in range — the topic/condition escape applies
to every non-Web platform because `IsTopic` is true whenever Condition is
non-empty. -/
theorem checkMessage_topic_escape (req : PushNotification)
    (hW : req.Platform ≠ PlatformWeb) (hTok : req.Tokens = []) (hTo : req.To = "")
    (hC : req.Condition ≠ "")
    (hTTL : ∀ t, req.Platform = PlatformAndroid → req.TimeToLive = some t → t ≤ 2419200) :
    CheckMessage req = none := by
  have hTopic : req.IsTopic = true := by
    unfold PushNotification.IsTopic
    have hb : (req.Condition != "") = true := by simpa using hC
    simp [hb]
  have n1 : ¬(req.IsTopic = false ∧ req.Tokens.length = 0 ∧ req.To.length = 0) := by
    simp [hTopic]
  have n2 : ¬(req.Tokens.length > 0 ∧ (req.Tokens.headD "").length = 0) := by
    simp [hTok]
  have n3 : ¬(req.Platform = PlatformAndroid ∧ req.Tokens.length > 1000) := by
    simp [hTok]
  have n4 : ¬(req.Platform = PlatformAndroid ∧ ttlOutOfRange req.TimeToLive = true) := by
    rintro ⟨hA, hbad⟩
    cases hT : req.TimeToLive with
    | none => rw [hT] at hbad; exact absurd hbad (by decide)
    | some t =>
        have hle := hTTL t hA hT
        rw [hT] at hbad
        unfold ttlOutOfRange at hbad
        simp at hbad
        omega
  unfold CheckMessage
  rw [if_neg hW, if_neg n1, if_neg n2, if_neg n3, if_neg n4]

/-- Witness for C10 at a concrete iOS request with a condition and no tokens:
validation succeeds, showing the escape applies beyond Android. -/
theorem checkMessage_topic_escape_witness :
    reqC10w.Platform = PlatformIos ∧ reqC10w.Tokens = [] ∧ reqC10w.Condition ≠ ""
    ∧ CheckMessage reqC10w = none :=
  ⟨rfl, rfl, by decide,
   checkMessage_topic_escape reqC10w (by decide) rfl rfl (by decide)
     (fun _ hA _ => absurd hA (by decide))⟩

theorem pushToWeb_some_proj (client : WebClient) (confMaxRetry : Int)
    (confAPIKey : String) (req : PushNotification) (st : GorushState) (e : String)
    (h : CheckMessage req = some e) :
    (PushToWeb client confMaxRetry confAPIKey req st).fst = false
    ∧ (PushToWeb client confMaxRetry confAPIKey req st).snd.webSuccess = st.webSuccess
    ∧ (PushToWeb client confMaxRetry confAPIKey req st).snd.webError = st.webError
    ∧ (PushToWeb client confMaxRetry confAPIKey req st).snd.attempts = st.attempts
    ∧ (PushToWeb client confMaxRetry confAPIKey req st).snd.reqLog = st.reqLog
    ∧ (PushToWeb client confMaxRetry confAPIKey req st).snd.waitDoneCalls
        = st.waitDoneCalls + (if req.sync then 1 else 0) := by
  rw [pushToWeb_some client confMaxRetry confAPIKey req st e h]
  cases hsy : req.sync <;> simp

theorem pushToWeb_none_proj (client : WebClient) (confMaxRetry : Int)
    (confAPIKey : String) (req : PushNotification) (st : GorushState)
    (h : CheckMessage req = none) :
    (PushToWeb client confMaxRetry confAPIKey req st).fst
        = (pushLoop client (effectiveAPIKey confAPIKey req) req 0
            (webMaxRetry confMaxRetry req).toNat st).fst
    ∧ (PushToWeb client confMaxRetry confAPIKey req st).snd.webSuccess
        = (pushLoop client (effectiveAPIKey confAPIKey req) req 0
            (webMaxRetry confMaxRetry req).toNat st).snd.webSuccess
    ∧ (PushToWeb client confMaxRetry confAPIKey req st).snd.webError
        = (pushLoop client (effectiveAPIKey confAPIKey req) req 0
            (webMaxRetry confMaxRetry req).toNat st).snd.webError
    ∧ (PushToWeb client confMaxRetry confAPIKey req st).snd.attempts
        = (pushLoop client (effectiveAPIKey confAPIKey req) req 0
            (webMaxRetry confMaxRetry req).toNat st).snd.attempts
    ∧ (PushToWeb client confMaxRetry confAPIKey req st).snd.reqLog
        = (pushLoop client (effectiveAPIKey confAPIKey req) req 0
            (webMaxRetry confMaxRetry req).toNat st).snd.reqLog := by
  rw [pushToWeb_none client confMaxRetry confAPIKey req st h]
  cases hsy : req.sync <;> simp

/-- C5: the success and failure counters together grow by exactly the full
recipient count of the request on every attempt performed (so a retried
attempt re-processes every recipient and re-counts them all), and neither
counter ever decreases. -/
theorem pushToWeb_wholeBatch_counters (client : WebClient) (confMaxRetry : Int)
    (confAPIKey : String) (req : PushNotification) (st : GorushState) :
    (PushToWeb client confMaxRetry confAPIKey req st).snd.webSuccess
        + (PushToWeb client confMaxRetry confAPIKey req st).snd.webError
      = st.webSuccess + st.webError
        + ((PushToWeb client confMaxRetry confAPIKey req st).snd.attempts - st.attempts)
          * req.Subscriptions.length
    ∧ st.webSuccess ≤ (PushToWeb client confMaxRetry confAPIKey req st).snd.webSuccess
    ∧ st.webError ≤ (PushToWeb client confMaxRetry confAPIKey req st).snd.webError := by
  cases hcm : CheckMessage req with
  | some e =>
      obtain ⟨_, hS, hE, hA, _, _⟩ :=
        pushToWeb_some_proj client confMaxRetry confAPIKey req st e hcm
      rw [hS, hE, hA]
      simp
  | none =>
      obtain ⟨_, hS, hE, hA, _⟩ :=
        pushToWeb_none_proj client confMaxRetry confAPIKey req st hcm
      obtain ⟨d, _, hA2, _, hC, hS2, hE2, _, _⟩ :=
        pushLoop_spec client (effectiveAPIKey confAPIKey req) req
          (webMaxRetry confMaxRetry req).toNat 0 st
      rw [hS, hE, hA, hA2]
      have hsub : st.attempts + d + 1 - st.attempts = d + 1 := by omega
      rw [hsub]
      exact ⟨hC, hS2, hE2⟩

/-- C4 counterexample: with retry override 1 (and configured maximum 3) under
an always-failing client, the sender performs 2 full delivery passes, refuting
"at most r attempts". -/
theorem pushToWeb_attempts_exceed_override :
    reqC4.Retry = 1 ∧ ((1:Int) < 3)
    ∧ (PushToWeb clientFailAll 3 "" reqC4 st0).snd.attempts = 2
    ∧ ¬((PushToWeb clientFailAll 3 "" reqC4 st0).snd.attempts - st0.attempts ≤ 1) := by
  decide

/-- C4 (amended): the sender performs at most `r + 1` full delivery passes
(one initial attempt plus at most `r` retries) when `0 < r < configuredMax`,
and at most `configuredMax + 1` passes otherwise (a non-positive configured
maximum allows exactly one pass). -/
theorem pushToWeb_attempts_bound (client : WebClient) (confMaxRetry : Int)
    (confAPIKey : String) (req : PushNotification) (st : GorushState) :
    (PushToWeb client confMaxRetry confAPIKey req st).snd.attempts - st.attempts
      ≤ (if 0 < req.Retry ∧ req.Retry < confMaxRetry then req.Retry.toNat
         else confMaxRetry.toNat) + 1 := by
  have hb : (webMaxRetry confMaxRetry req).toNat
      = if 0 < req.Retry ∧ req.Retry < confMaxRetry then req.Retry.toNat
        else confMaxRetry.toNat := by
    unfold webMaxRetry
    rw [apply_ite Int.toNat]
  rw [← hb]
  cases hcm : CheckMessage req with
  | some e =>
      obtain ⟨_, _, _, hA, _, _⟩ :=
        pushToWeb_some_proj client confMaxRetry confAPIKey req st e hcm
      rw [hA]
      omega
  | none =>
      obtain ⟨_, _, _, hA, _⟩ :=
        pushToWeb_none_proj client confMaxRetry confAPIKey req st hcm
      obtain ⟨d, hd, hA2, _, _, _, _, _, _⟩ :=
        pushLoop_spec client (effectiveAPIKey confAPIKey req) req
          (webMaxRetry confMaxRetry req).toNat 0 st
      rw [hA, hA2]
      omega

/-- C8: in synchronous mode the deferred `WaitDone` fires exactly once on
every exit path of the sender, including the validation-failure exit. -/
theorem pushToWeb_sync_waitDone_once (client : WebClient) (confMaxRetry : Int)
    (confAPIKey : String) (req : PushNotification) (st : GorushState)
    (h : req.sync = true) :
    (PushToWeb client confMaxRetry confAPIKey req st).snd.waitDoneCalls
      = st.waitDoneCalls + 1 := by
  cases hcm : CheckMessage req with
  | some e =>
      obtain ⟨_, _, _, _, _, hW⟩ :=
        pushToWeb_some_proj client confMaxRetry confAPIKey req st e hcm
      rw [hW, h]
      simp
  | none =>
      rw [pushToWeb_none client confMaxRetry confAPIKey req st hcm, if_pos h]
      obtain ⟨d, _, _, _, _, _, _, hW, _⟩ :=
        pushLoop_spec client (effectiveAPIKey confAPIKey req) req
          (webMaxRetry confMaxRetry req).toNat 0 st
      simp [hW]

/-- Witness for C8 at a concrete synchronous request that fails validation:
`WaitDone` still fires exactly once. -/
theorem pushToWeb_sync_waitDone_once_witness :
    reqC8.sync = true
    ∧ (PushToWeb clientOkAll 3 "" reqC8 st0).snd.waitDoneCalls = st0.waitDoneCalls + 1 :=
  ⟨rfl, pushToWeb_sync_waitDone_once clientOkAll 3 "" reqC8 st0 rfl⟩

/-- C2 (code bug): a request that fails validation makes the sender log the
error and return `false` — the "no failure" value, although the contract says
the validation-failure exit returns the "failed" result — with no delivery
attempt, the counters and the request log untouched, and (in synchronous
mode) the completion obligation still discharged. -/
theorem pushToWeb_validationFailure_behavior :
    PushToWeb clientOkAll 3 "" reqC2bug st0
      = (false,
         { webSuccess := 0, webError := 0, attempts := 0, reqLog := [], extPush := [],
           extError := ["request error: the message must specify at least one subscription"],
           waitDoneCalls := 1, wgCount := -1 }) := by
  decide

/-- C1 counterexample: under a client that fails the first subscription and
accepts the second, the single (hence final) attempt has one failed recipient
(the failure counter moves from 0 to 1) yet the sender returns `false`,
refuting "any failed recipient of the final attempt makes the result true". -/
theorem pushToWeb_anyFailure_claim_false :
    (PushToWeb clientFailA 3 "" reqC1 st0).snd.webError = 1
    ∧ (PushToWeb clientFailA 3 "" reqC1 st0).snd.attempts = 1
    ∧ (PushToWeb clientFailA 3 "" reqC1 st0).fst = false := by
  decide

/-- C1 (amended): for every request that passes validation, the sender
returns `true` iff the client call for the last-iterated recipient of the
final attempt returned an error (`false` when there are no recipients),
because each loop iteration overwrites the error flag. -/
theorem pushToWeb_result_eq_lastOutcome (client : WebClient) (confMaxRetry : Int)
    (confAPIKey : String) (req : PushNotification) (st : GorushState)
    (h : CheckMessage req = none) :
    (PushToWeb client confMaxRetry confAPIKey req st).fst
      = attemptLastErr client (effectiveAPIKey confAPIKey req)
          ((PushToWeb client confMaxRetry confAPIKey req st).snd.attempts
            - st.attempts - 1) req := by
  obtain ⟨hf, _, _, hA, _⟩ :=
    pushToWeb_none_proj client confMaxRetry confAPIKey req st h
  obtain ⟨d, _, hA2, hF, _, _, _, _, _⟩ :=
    pushLoop_spec client (effectiveAPIKey confAPIKey req) req
      (webMaxRetry confMaxRetry req).toNat 0 st
  rw [hf, hF, hA, hA2]
  have hidx : st.attempts + d + 1 - st.attempts - 1 = 0 + d := by omega
  rw [hidx]

/-- Witness for C1 at a concrete valid request whose first subscription fails
and second succeeds. -/
theorem pushToWeb_result_eq_lastOutcome_witness :
    CheckMessage reqC1 = none
    ∧ (PushToWeb clientFailA 3 "" reqC1 st0).fst
        = attemptLastErr clientFailA (effectiveAPIKey "" reqC1)
            ((PushToWeb clientFailA 3 "" reqC1 st0).snd.attempts
              - st0.attempts - 1) reqC1 :=
  ⟨by decide, pushToWeb_result_eq_lastOutcome clientFailA 3 "" reqC1 st0 (by decide)⟩

/-- C3 counterexample: in the spec's two-subscription scenario (A succeeds
and B fails on attempt 1, both succeed on attempt 2, budget 2) the final
accumulated log holds 1 entry, not 4, while the failure counter is
incremented once, the success counter three times, and the result is false. -/
theorem pushToWeb_scenario_log_one_not_four :
    (PushToWeb clientScenario 2 "" reqScenario st0).snd.reqLog.length = 1
    ∧ ¬((PushToWeb clientScenario 2 "" reqScenario st0).snd.reqLog.length = 4)
    ∧ (PushToWeb clientScenario 2 "" reqScenario st0).snd.webError = 1
    ∧ (PushToWeb clientScenario 2 "" reqScenario st0).snd.webSuccess = 3
    ∧ (PushToWeb clientScenario 2 "" reqScenario st0).fst = false := by
  decide

/-- C3 (amended): in synchronous mode with the log accumulator attached, the
accumulated per-request log receives exactly one entry per failed recipient
outcome of every attempt and none for successes: its growth equals the growth
of the failure counter. -/
theorem pushToWeb_syncLog_counts_failures (client : WebClient) (confMaxRetry : Int)
    (confAPIKey : String) (req : PushNotification) (st : GorushState)
    (hs : req.sync = true) (hl : req.logSet = true) :
    (PushToWeb client confMaxRetry confAPIKey req st).snd.reqLog.length + st.webError
      = st.reqLog.length
        + (PushToWeb client confMaxRetry confAPIKey req st).snd.webError := by
  cases hcm : CheckMessage req with
  | some e =>
      obtain ⟨_, _, hE, _, hL, _⟩ :=
        pushToWeb_some_proj client confMaxRetry confAPIKey req st e hcm
      rw [hE, hL]
  | none =>
      obtain ⟨_, _, hE, _, hL⟩ :=
        pushToWeb_none_proj client confMaxRetry confAPIKey req st hcm
      obtain ⟨d, _, _, _, _, _, _, _, hLaw⟩ :=
        pushLoop_spec client (effectiveAPIKey confAPIKey req) req
          (webMaxRetry confMaxRetry req).toNat 0 st
      rw [hE, hL]
      exact hLaw hs hl

/-- Witness for C3 at the spec's two-subscription scenario. -/
theorem pushToWeb_syncLog_counts_failures_witness :
    reqScenario.sync = true ∧ reqScenario.logSet = true
    ∧ (PushToWeb clientScenario 2 "" reqScenario st0).snd.reqLog.length + st0.webError
        = st0.reqLog.length
          + (PushToWeb clientScenario 2 "" reqScenario st0).snd.webError :=
  ⟨rfl, rfl, pushToWeb_syncLog_counts_failures clientScenario 2 "" reqScenario st0 rfl rfl⟩

end Gorush
